import Mathlib

/-!
# Verification of the Mega download-relay bot (`src/main.py`)

A shallow embedding of the bot's own logic.  The two external client
libraries (the Telegram transport and the Mega storage client) are modelled
as an oracle (`Env`) describing the outcomes of their calls; everything the
repository's code itself does — authorization checks, link validation,
batch parsing, size formatting, and the orchestration of download, relay
and cleanup — is translated directly from the source, and each handler is
embedded as a function producing the list of externally visible actions it
performs, in order.

Python strings are modelled as Lean `String`s; the handful of string
operations the source uses (`startswith`, `strip`, `endswith`,
`os.path.basename`) are defined here over the character list `String.data`
so that all proofs can proceed by list reasoning and kernel evaluation.
-/

/-! ## String operations used by the source -/

/-- Python's whitespace set for `str.strip()`, restricted to ASCII
(space, tab, newline, carriage return, vertical tab, form feed); the
inputs relevant here are ASCII link lists. -/
def pyWs (c : Char) : Bool :=
  c = ' ' || c = '\t' || c = '\n' || c = '\r' || c = '\x0b' || c = '\x0c'

/-- Python `str.strip()`: drop leading and trailing whitespace. -/
def pyStrip (s : String) : String :=
  String.mk (((s.data.dropWhile pyWs).reverse.dropWhile pyWs).reverse)

/-- Python `s.startswith(p)`. -/
def pyStartswith (s p : String) : Bool :=
  p.data.isPrefixOf s.data

/-- Python `s.endswith(p)`. -/
def pyEndswith (s p : String) : Bool :=
  p.data.reverse.isPrefixOf s.data.reverse

/-- Python `os.path.basename` for the forward-slash paths built by the bot:
everything after the last `/`. -/
def pyBasename (p : String) : String :=
  String.mk ((p.data.reverse.takeWhile (fun c => c ≠ '/')).reverse)

/-- The provider's canonical public-link prefix, `'https://mega.nz/'` in
`download_command`, `handle_message` and `handle_document`. -/
def megaUrl : String := "https://mega.nz/"

/-- The link check the source applies (main.py:141, 170, 205):
`text.startswith('https://mega.nz/')`. -/
def is_valid_link (s : String) : Bool :=
  pyStartswith s megaUrl

/-- The static allow-list (main.py:12). -/
def AUTHORIZED_USERS : List Int := [123456789]

/-! ## Size formatter (main.py:97-103)

The source iterates `size_bytes /= 1024.0` over the unit list, in binary
floating point.  Every intermediate value is exactly `n / 1024^k`, which is
exactly representable as a double whenever `n < 2^53`; we carry the value
as the exact fraction `num / den` (with `den = 1024^k`), so the embedding
agrees with the source everywhere the source's doubles are exact.
`f"{x:.2f}"` correctly rounds the value to two decimals with ties going to
even, which `rheFrac` implements exactly. -/

/-- Round-half-to-even of the fraction `a / b` (for `b > 0`):
the hundredths value used by the `%.2f` rendering is `rheFrac (100*a) b`. -/
def rheFrac (a b : Nat) : Nat :=
  if 2 * (a % b) < b then a / b
  else if b < 2 * (a % b) then a / b + 1
  else if (a / b) % 2 = 0 then a / b else a / b + 1

/-- Render a hundredths value `h` as the decimal string `%.2f` produces:
integer part, a dot, and the two-digit zero-padded fractional part. -/
def fmt2h (h : Nat) : String :=
  toString (h / 100) ++ "." ++
    (if h % 100 < 10 then "0" ++ toString (h % 100) else toString (h % 100))

/-- `f"{num/den:.2f}"`, exactly. -/
def fmt2frac (num den : Nat) : String :=
  fmt2h (rheFrac (100 * num) den)

/-- The unit list the source's `for`-loop walks (main.py:99). -/
def units5 : List String := ["B", "KB", "MB", "GB", "TB"]

/-- The loop body of `format_size`: the running value is `num / den`; the
test `size_bytes < 1024.0` is `num / den < 1024`, i.e. `num < 1024 * den`,
and `size_bytes /= 1024.0` multiplies the denominator by `1024`.  Falling
off the list returns petabytes (main.py:103). -/
def formatSizeAux (num : Nat) (den : Nat) : List String → String
  | [] => fmt2frac num den ++ " PB"
  | u :: us =>
      if num < 1024 * den then fmt2frac num den ++ " " ++ u
      else formatSizeAux num (den * 1024) us

/-- `format_size` (main.py:97-103). -/
def format_size (size_bytes : Nat) : String :=
  formatSizeAux size_bytes 1 units5

/-- All unit suffixes `format_size` can produce. -/
def unitsAll : List String := ["B", "KB", "MB", "GB", "TB", "PB"]

/-- The index of the unit `format_size n` ends in: the number of divisions
by 1024 the loop performs before returning. -/
def sizeUnitIdx (n : Nat) : Nat :=
  if n < 1024 ^ 1 then 0
  else if n < 1024 ^ 2 then 1
  else if n < 1024 ^ 3 then 2
  else if n < 1024 ^ 4 then 3
  else if n < 1024 ^ 5 then 4
  else 5

/-- The unit suffix of `format_size n`. -/
def sizeUnit (n : Nat) : String :=
  unitsAll.getD (sizeUnitIdx n) "PB"

/-- The numeric part of `format_size n`, in hundredths. -/
def sizeHundredths (n : Nat) : Nat :=
  rheFrac (100 * n) (1024 ^ sizeUnitIdx n)

/-! ## Batch parsing (main.py:204-207) -/

/-- The list comprehension of main.py:205: keep `line.strip()` for each
line with `line.strip()` truthy and `line.startswith('https://mega.nz/')`.
Lines are modelled without their terminating newline, which changes
neither test (the prefix contains no newline and `strip` discards it). -/
def parse_links (lines : List String) : List String :=
  (lines.filter (fun l => (pyStrip l != "") && pyStartswith l megaUrl)).map pyStrip

/-- The batch the spec's words describe, for comparison with
`parse_links`: exactly the non-empty lines that pass the Link Validator,
kept unchanged. -/
def specBatch (lines : List String) : List String :=
  lines.filter (fun l => (l != "") && is_valid_link l)

/-! ## Events, actions and the external-outcome oracle

Each handler is embedded as a function from its inputs (and an `Env`
recording the outcomes of the external calls it makes) to the ordered list
of externally visible actions it performs.  A `sendDocument` action
records the *attempt* to upload (main.py's `reply_document`); whether that
attempt succeeded is `Env.uploadOk` at the file's path. -/

/-- Metadata returned by `mega.get_public_file_info` (main.py:57). -/
structure FileMeta where
  name : String
  size : Nat
  deriving DecidableEq

/-- Outcomes of the external collaborators' calls.
`fileInfo link = none` models the provider reporting the link invalid
(main.py:58); `downloadOk link = false` models `download_from_url`
raising, with `downloadErr link` the exception text; `uploadOk path =
false` models `reply_document` raising for the file at `path`, with
`uploadErr path` the exception text. -/
structure Env where
  fileInfo : String → Option FileMeta
  downloadOk : String → Bool
  downloadErr : String → String
  uploadOk : String → Bool
  uploadErr : String → String

/-- The texts of the chat messages the bot sends or edits. -/
inductive Msg where
  | denied
  | welcome
  | usageDownload
  | invalidMegaLink
  | sendValidLink
  | uploadTextFile
  | noValidLinks
  | found (n : Nat)
  | progress (i n : Nat)
  | batchDone
  | errorSending (i : Option Nat) (e : String)
  | processing (megaLink : String)
  | fileInfoMsg (name : String) (size : Nat)
  | completed (name path : String)
  | downloadFailed (e : String)
  | invalidLink
  | capCompleted (name : String)
  | capBatch (i n : Nat) (name : String)
  deriving DecidableEq

/-- The externally visible actions a handler performs, in order. -/
inductive Act where
  | sendMessage (chat : Nat) (m : Msg)
  | editMessage (chat : Nat) (m : Msg)
  | createFile (path : String)
  | removeFile (path : String)
  | sendDocument (chat : Nat) (path : String) (cap : Msg)
  | sleep (secs : Nat)
  deriving DecidableEq

/-- `download_from_public_link` (main.py:37-95): send the processing
message; look up the metadata — if the provider reports the link invalid,
edit to the fixed invalid-link notice and return `None`; otherwise edit in
the name and formatted size, stream the download to
`downloads/<name>` and edit to the completed notice, returning the path —
and on a download exception edit the message to the error text and return
`None`. -/
def download_from_public_link (env : Env) (chat : Nat) (megaLink : String) :
    List Act × Option String :=
  match env.fileInfo megaLink with
  | none =>
      ([Act.sendMessage chat (Msg.processing megaLink),
        Act.editMessage chat Msg.invalidLink], none)
  | some info =>
      let path := "downloads/" ++ info.name
      if env.downloadOk megaLink then
        ([Act.sendMessage chat (Msg.processing megaLink),
          Act.editMessage chat (Msg.fileInfoMsg info.name info.size),
          Act.createFile path,
          Act.editMessage chat (Msg.completed info.name path)], some path)
      else
        ([Act.sendMessage chat (Msg.processing megaLink),
          Act.editMessage chat (Msg.fileInfoMsg info.name info.size),
          Act.editMessage chat (Msg.downloadFailed (env.downloadErr megaLink))], none)

/-- The relay block the source repeats at main.py:150-159, 176-185 and
221-229: attempt `reply_document` with the given caption; if it returns,
`os.remove` the file; if it raises, the `except` branch sends the
error-sending message — `os.remove` sits inside the `try` after the
upload, so it only runs when the upload succeeded. -/
def relayFile (env : Env) (chat : Nat) (path : String) (cap : Msg) (idx : Option Nat) :
    List Act :=
  if env.uploadOk path then
    [Act.sendDocument chat path cap, Act.removeFile path]
  else
    [Act.sendDocument chat path cap,
     Act.sendMessage chat (Msg.errorSending idx (env.uploadErr path))]

/-- `start_command` (main.py:105-127). -/
def start_command (user : Int) (chat : Nat) : List Act :=
  if user ∈ AUTHORIZED_USERS then
    [Act.sendMessage chat Msg.welcome]
  else
    [Act.sendMessage chat Msg.denied]

/-- `download_command` (main.py:129-159): authorization first, then the
no-argument usage reply, then the prefix check, then download and — if a
path came back — the relay block. -/
def download_command (env : Env) (user : Int) (chat : Nat) (args : List String) :
    List Act :=
  if user ∈ AUTHORIZED_USERS then
    match args with
    | [] => [Act.sendMessage chat Msg.usageDownload]
    | megaLink :: _ =>
        if is_valid_link megaLink then
          let res := download_from_public_link env chat megaLink
          res.1 ++
            (match res.2 with
             | some p => relayFile env chat p (Msg.capCompleted (pyBasename p)) none
             | none => [])
        else [Act.sendMessage chat Msg.invalidMegaLink]
  else [Act.sendMessage chat Msg.denied]

/-- `handle_message` (main.py:161-187): authorization first, then the
prefix check on the message text, then the same download-and-relay
pipeline; otherwise the fixed send-a-valid-link reply. -/
def handle_message (env : Env) (user : Int) (chat : Nat) (text : String) :
    List Act :=
  if user ∈ AUTHORIZED_USERS then
    if is_valid_link text then
      let res := download_from_public_link env chat text
      res.1 ++
        (match res.2 with
         | some p => relayFile env chat p (Msg.capCompleted (pyBasename p)) none
         | none => [])
    else [Act.sendMessage chat Msg.sendValidLink]
  else [Act.sendMessage chat Msg.denied]

/-- An uploaded document: its declared media type, name, id, and the lines
of its text content (modelled without terminating newlines). -/
structure Document where
  mimeType : String
  fileName : String
  fileId : String
  content : List String
  deriving DecidableEq

/-- The body of the batch loop of `handle_document` (main.py:216-232) for
item `i` of `N`: announce the position, run the download pipeline, relay
only when it returned a path, and sleep 2 units unconditionally. -/
def batchItem (env : Env) (chat : Nat) (N i : Nat) (megaLink : String) : List Act :=
  [Act.sendMessage chat (Msg.progress i N)]
    ++ (download_from_public_link env chat megaLink).1
    ++ (match (download_from_public_link env chat megaLink).2 with
        | some p => relayFile env chat p (Msg.capBatch i N (pyBasename p)) (some i)
        | none => [])
    ++ [Act.sleep 2]

/-- The `for i, link in enumerate(links, 1)` loop of main.py:216-232. -/
def batchLoop (env : Env) (chat : Nat) (N : Nat) : Nat → List String → List Act
  | _, [] => []
  | i, megaLink :: rest =>
      batchItem env chat N i megaLink ++ batchLoop env chat N (i + 1) rest

/-- `handle_document` (main.py:189-236): authorization first; for a
plain-text upload, save the file to `temp_<id>.txt`, parse the links,
remove the temp file, and either report no valid links or announce the
count, run the batch loop, and send the final completion message; for any
other upload, the fixed upload-a-text-file reply. -/
def handle_document (env : Env) (user : Int) (chat : Nat) (doc : Document) :
    List Act :=
  if user ∈ AUTHORIZED_USERS then
    if doc.mimeType == "text/plain" || pyEndswith doc.fileName ".txt" then
      let temp := "temp_" ++ doc.fileId ++ ".txt"
      let links := parse_links doc.content
      [Act.createFile temp, Act.removeFile temp] ++
        (if links.isEmpty then [Act.sendMessage chat Msg.noValidLinks]
         else
           [Act.sendMessage chat (Msg.found links.length)]
             ++ batchLoop env chat links.length 1 links
             ++ [Act.sendMessage chat Msg.batchDone])
    else [Act.sendMessage chat Msg.uploadTextFile]
  else [Act.sendMessage chat Msg.denied]

/-- The `__main__` guard (main.py:252-266): with the token still at its
placeholder, print the setup instructions and stop; otherwise build the
application and start polling. -/
inductive StartupAction where
  | printSetup
  | buildApp
  | runPolling
  deriving DecidableEq

/-- The placeholder value of `BOT_TOKEN` (main.py:254). -/
def placeholderToken : String := "YOUR_BOT_TOKEN_HERE"

/-- The startup decision of main.py:259-266. -/
def main_startup (botToken : String) : List StartupAction :=
  if botToken = placeholderToken then [StartupAction.printSetup]
  else [StartupAction.buildApp, StartupAction.runPolling]

/-! ## Concrete oracles and inputs used in witnesses and counterexamples -/

/-- Every external call succeeds; the link resolves to `a.zip` of 2048 bytes. -/
def envUp : Env where
  fileInfo := fun _ => some ⟨"a.zip", 2048⟩
  downloadOk := fun _ => true
  downloadErr := fun _ => "err"
  uploadOk := fun _ => true
  uploadErr := fun _ => "senderr"

/-- Metadata and download succeed but every upload to the chat fails. -/
def envDown : Env where
  fileInfo := fun _ => some ⟨"a.zip", 2048⟩
  downloadOk := fun _ => true
  downloadErr := fun _ => "err"
  uploadOk := fun _ => false
  uploadErr := fun _ => "senderr"

/-- The provider reports every link invalid. -/
def envBad : Env where
  fileInfo := fun _ => none
  downloadOk := fun _ => true
  downloadErr := fun _ => "err"
  uploadOk := fun _ => true
  uploadErr := fun _ => "senderr"

/-- A one-link plain-text batch upload. -/
def docOne : Document where
  mimeType := "text/plain"
  fileName := "links.txt"
  fileId := "f1"
  content := ["https://mega.nz/file/AAA"]

/-! ## Helper lemmas -/

/-- `List.isPrefixOf` holds exactly when the second list extends the first. -/
theorem isPrefixOf_append_iff (l₁ l₂ : List Char) :
    l₁.isPrefixOf l₂ = true ↔ ∃ t, l₂ = l₁ ++ t := by
  induction l₁ generalizing l₂ with
  | nil => simp [ List.isPrefixOf]
  | cons a as ih =>
    cases l₂ with
    | nil => simp [ List.isPrefixOf]
    | cons b bs =>
      simp only [ List.isPrefixOf, Bool.and_eq_true, beq_iff_eq, ih, List.cons_append,
        List.cons.injEq]
      constructor
      · rintro ⟨rfl, t, rfl⟩
        exact ⟨t, rfl, rfl⟩
      · rintro ⟨t, rfl, rfl⟩
        exact ⟨rfl, t, rfl⟩

/-- An element that the predicate rejects survives `dropWhile`. -/
theorem mem_dropWhile_of_mem {α : Type} (p : α → Bool) {c : α} {l : List α}
    (hmem : c ∈ l) (hc : p c = false) : c ∈ l.dropWhile p := by
  induction l with
  | nil => cases hmem
  | cons a as ih =>
    rw [List.dropWhile_cons]
    by_cases hpa : p a = true
    · rw [if_pos hpa]
      rcases List.mem_cons.mp hmem with rfl | hmm
      · rw [hpa] at hc; cases hc
      · exact ih hmm
    · rw [if_neg hpa]
      exact hmem

/-- A string containing a non-whitespace character strips to a non-empty
string. -/
theorem pyStrip_data_ne_nil {l : String} {c : Char} (hc : pyWs c = false)
    (hmem : c ∈ l.data) : (pyStrip l).data ≠ [] := by
  intro hnil
  have h1 : ((l.data.dropWhile pyWs).reverse.dropWhile pyWs).reverse = [] := hnil
  rw [List.reverse_eq_nil_iff, List.dropWhile_eq_nil_iff] at h1
  have h2 : c ∈ (l.data.dropWhile pyWs).reverse :=
    List.mem_reverse.mpr (mem_dropWhile_of_mem pyWs hmem hc)
  rw [h1 c h2] at hc
  cases hc

/-- A line passing the link check strips to a truthy (non-empty) string:
it starts with the non-whitespace character `'h'`. -/
theorem pyStrip_truthy_of_valid {l : String} (h : pyStartswith l megaUrl = true) :
    (pyStrip l != "") = true := by
  rw [pyStartswith, isPrefixOf_append_iff] at h
  obtain ⟨t, ht⟩ := h
  have hmem : 'h' ∈ l.data := by
    rw [ht]
    exact List.mem_append_left _ (by decide)
  have hne : (pyStrip l).data ≠ [] := pyStrip_data_ne_nil (by decide) hmem
  rw [bne_iff_ne]
  intro hcon
  exact hne (by rw [hcon])

/-- The comprehension of main.py:205 equals the prefix filter followed by
stripping: the truthiness conjunct is redundant for lines that pass the
prefix check. -/
theorem parse_links_eq (lines : List String) :
    parse_links lines = (lines.filter (fun l => is_valid_link l)).map pyStrip := by
  unfold parse_links
  congr 1
  apply List.filter_congr
  intro l _
  cases hV : pyStartswith l megaUrl
  · simp [is_valid_link, hV]
  · simp [is_valid_link, hV, pyStrip_truthy_of_valid hV]

/-- Round-half-even is at least the floor. -/
theorem rheFrac_ge (a b : Nat) : a / b ≤ rheFrac a b := by
  unfold rheFrac; split_ifs <;> omega

/-- Round-half-even is at most the floor plus one. -/
theorem rheFrac_le (a b : Nat) : rheFrac a b ≤ a / b + 1 := by
  unfold rheFrac; split_ifs <;> omega

/-- Round-half-even of `a / b` is monotone in `a`. -/
theorem rheFrac_mono (b : Nat) {a a' : Nat} (h : a ≤ a') :
    rheFrac a b ≤ rheFrac a' b := by
  have hf : a / b ≤ a' / b := Nat.div_le_div_right h
  rcases Nat.lt_or_ge (a / b) (a' / b) with hlt | hge
  · calc rheFrac a b ≤ a / b + 1 := rheFrac_le a b
      _ ≤ a' / b := hlt
      _ ≤ rheFrac a' b := rheFrac_ge a' b
  · have heq : a / b = a' / b := Nat.le_antisymm hf hge
    have h1 := Nat.div_add_mod a b
    have h2 := Nat.div_add_mod a' b
    rw [heq] at h1
    have hr : a % b ≤ a' % b := by omega
    unfold rheFrac
    rw [heq]
    split_ifs <;> omega

/-- The unit index is one of 0..5. -/
theorem sizeUnitIdx_le (n : Nat) : sizeUnitIdx n ≤ 5 := by
  unfold sizeUnitIdx; split_ifs <;> omega

/-- Distinct indices below 6 name distinct units. -/
theorem unitsAll_getD_inj (i j : Nat) (hi : i ≤ 5) (hj : j ≤ 5)
    (h : unitsAll.getD i "PB" = unitsAll.getD j "PB") : i = j := by
  interval_cases i <;> interval_cases j <;> revert h <;> decide

/-- Equal unit suffixes force equal unit indices. -/
theorem sizeUnit_inj {n m : Nat} (h : sizeUnit n = sizeUnit m) :
    sizeUnitIdx n = sizeUnitIdx m :=
  unitsAll_getD_inj _ _ (sizeUnitIdx_le n) (sizeUnitIdx_le m) h

/-- The loop of `format_size` returns the two-decimal rendering of
`n / 1024^k` and the `k`-th unit, where `k` is the unit index of `n`. -/
theorem format_size_eq (n : Nat) :
    format_size n = fmt2h (sizeHundredths n) ++ " " ++ sizeUnit n := by
  have p1 : (1024 : Nat) ^ 1 = 1024 := by norm_num
  have p2 : (1024 : Nat) ^ 2 = 1048576 := by norm_num
  have p3 : (1024 : Nat) ^ 3 = 1073741824 := by norm_num
  have p4 : (1024 : Nat) ^ 4 = 1099511627776 := by norm_num
  have p5 : (1024 : Nat) ^ 5 = 1125899906842624 := by norm_num
  simp only [format_size, units5, formatSizeAux, sizeHundredths, sizeUnit, sizeUnitIdx,
    unitsAll, fmt2frac, p1, p2, p3, p4, p5]
  norm_num
  by_cases h0 : n < 1024
  · simp [h0]
  · simp only [h0, if_false]
    by_cases h1 : n < 1048576
    · have e1 : n < 1024 * 1024 := by omega
      simp [h1, e1]
    · have e1 : ¬ (n < 1024 * 1024) := by omega
      simp only [h1, e1, if_false]
      by_cases h2 : n < 1073741824
      · have e2 : n < 1024 * (1024 * 1024) := by omega
        have e2b : n < 1024 * 1024 * 1024 := by omega
        simp [h2, e2, e2b]
      · have e2 : ¬ (n < 1024 * (1024 * 1024)) := by omega
        have e2b : ¬ (n < 1024 * 1024 * 1024) := by omega
        simp only [h2, e2, e2b, if_false]
        by_cases h3 : n < 1099511627776
        · have e3 : n < 1024 * (1024 * 1024 * 1024) := by omega
          have e3b : n < 1024 * 1024 * 1024 * 1024 := by omega
          simp [h3, e3, e3b]
        · have e3 : ¬ (n < 1024 * (1024 * 1024 * 1024)) := by omega
          have e3b : ¬ (n < 1024 * 1024 * 1024 * 1024) := by omega
          simp only [h3, e3, e3b, if_false]
          by_cases h4 : n < 1125899906842624
          · have e4 : n < 1024 * (1024 * 1024 * 1024 * 1024) := by omega
            have e4b : n < 1024 * 1024 * 1024 * 1024 * 1024 := by omega
            simp [h4, e4, e4b]
          · have e4 : ¬ (n < 1024 * (1024 * 1024 * 1024 * 1024)) := by omega
            have e4b : ¬ (n < 1024 * 1024 * 1024 * 1024 * 1024) := by omega
            simp [h4, e4, e4b]
            rw [String.append_assoc]
            congr 1

/-- Unfolding one iteration of the batch loop. -/
theorem batchLoop_cons (env : Env) (chat N i : Nat) (megaLink : String)
    (rest : List String) :
    batchLoop env chat N i (megaLink :: rest) =
      batchItem env chat N i megaLink ++ batchLoop env chat N (i + 1) rest := rfl

/-- The batch loop visits every link in order, pairing item `j` of the
list with position `i + j`, exactly as `enumerate(links, i)` does. -/
theorem batchLoop_eq_flatMap (env : Env) (chat N : Nat) :
    ∀ (ls : List String) (i : Nat),
      batchLoop env chat N i ls =
        (List.enumFrom i ls).flatMap (fun p => batchItem env chat N p.1 p.2) := by
  intro ls
  induction ls with
  | nil => intro i; rfl
  | cons a as ih =>
    intro i
    rw [batchLoop_cons, List.enumFrom_cons, List.flatMap_cons, ih (i + 1)]

/-- No batch-item trace contains the final batch-completed message. -/
theorem batchDone_not_mem_batchItem (env : Env) (chat N i : Nat) (megaLink : String) :
    Act.sendMessage chat Msg.batchDone ∉ batchItem env chat N i megaLink := by
  rcases hfi : env.fileInfo megaLink with _ | info
  · simp [batchItem, download_from_public_link, hfi]
  · cases hdl : env.downloadOk megaLink
    · simp [batchItem, download_from_public_link, hfi, hdl]
    · cases hup : env.uploadOk ("downloads/" ++ info.name)
      · simp [batchItem, download_from_public_link, relayFile, hfi, hdl, hup]
      · simp [batchItem, download_from_public_link, relayFile, hfi, hdl, hup]

/-- Each batch item sleeps exactly once. -/
theorem count_sleep_batchItem (env : Env) (chat N i : Nat) (megaLink : String) :
    (batchItem env chat N i megaLink).count (Act.sleep 2) = 1 := by
  rcases hfi : env.fileInfo megaLink with _ | info
  · simp [batchItem, download_from_public_link, hfi]
  · cases hdl : env.downloadOk megaLink
    · simp [batchItem, download_from_public_link, hfi, hdl]
    · cases hup : env.uploadOk ("downloads/" ++ info.name)
      · simp [batchItem, download_from_public_link, relayFile, hfi, hdl, hup]
      · simp [batchItem, download_from_public_link, relayFile, hfi, hdl, hup]

/-- The loop itself never emits the batch-completed message. -/
theorem count_batchDone_batchLoop (env : Env) (chat N : Nat) :
    ∀ (ls : List String) (i : Nat),
      (batchLoop env chat N i ls).count (Act.sendMessage chat Msg.batchDone) = 0 := by
  intro ls
  induction ls with
  | nil => intro i; rfl
  | cons a as ih =>
    intro i
    rw [batchLoop_cons, List.count_append, ih (i + 1),
      List.count_eq_zero.mpr (batchDone_not_mem_batchItem env chat N i a)]

/-- The loop sleeps exactly once per item, failed items included. -/
theorem count_sleep_batchLoop (env : Env) (chat N : Nat) :
    ∀ (ls : List String) (i : Nat),
      (batchLoop env chat N i ls).count (Act.sleep 2) = ls.length := by
  intro ls
  induction ls with
  | nil => intro i; rfl
  | cons a as ih =>
    intro i
    rw [batchLoop_cons, List.count_append, ih (i + 1), count_sleep_batchItem,
      List.length_cons]
    omega

/-! ## Claims -/

/-- C2: for every inbound event — start command, download command,
free-text message, document upload — whose sender is not in the static
allow-list, the handler's entire trace is the single fixed denial message:
no download, no relay, no file is created, nothing else runs. -/
theorem c2_unauthorized_denial (env : Env) (user : Int) (chat : Nat)
    (args : List String) (text : String) (doc : Document)
    (h : user ∉ AUTHORIZED_USERS) :
    start_command user chat = [Act.sendMessage chat Msg.denied] ∧
    download_command env user chat args = [Act.sendMessage chat Msg.denied] ∧
    handle_message env user chat text = [Act.sendMessage chat Msg.denied] ∧
    handle_document env user chat doc = [Act.sendMessage chat Msg.denied] := by
  refine ⟨?_, ?_, ?_, ?_⟩ <;>
    simp [start_command, download_command, handle_message, handle_document, h]

/-- C2 witness: the unauthorized user `0` gets exactly the denial from
each handler. -/
theorem c2_witness :
    start_command 0 5 = [Act.sendMessage 5 Msg.denied] ∧
    download_command envUp 0 5 ["https://mega.nz/file/X"] = [Act.sendMessage 5 Msg.denied] :=
  ⟨(c2_unauthorized_denial envUp 0 5 ["https://mega.nz/file/X"] "" docOne (by decide)).1,
   (c2_unauthorized_denial envUp 0 5 ["https://mega.nz/file/X"] "" docOne (by decide)).2.1⟩

/-- C4: when the metadata lookup reports the link invalid, the
orchestrator's whole trace is the processing message followed by the fixed
invalid-link edit, it returns no artifact, no file is ever created, and
the enclosing download command emits nothing further. -/
theorem c4_invalid_link (env : Env) (chat : Nat) (megaLink : String)
    (h : env.fileInfo megaLink = none) :
    download_from_public_link env chat megaLink =
      ([Act.sendMessage chat (Msg.processing megaLink),
        Act.editMessage chat Msg.invalidLink], none) ∧
    (∀ p, Act.createFile p ∉ (download_from_public_link env chat megaLink).1) ∧
    (∀ (user : Int) (rest : List String), user ∈ AUTHORIZED_USERS →
       is_valid_link megaLink = true →
       download_command env user chat (megaLink :: rest) =
         [Act.sendMessage chat (Msg.processing megaLink),
          Act.editMessage chat Msg.invalidLink]) := by
  refine ⟨?_, ?_, ?_⟩
  · simp [download_from_public_link, h]
  · intro p
    simp [download_from_public_link, h]
  · intro user rest hu hv
    simp [download_command, hu, hv, download_from_public_link, h]

/-- C4 witness: with the provider reporting every link invalid, the
orchestrator for `https://mega.nz/file/BAD` sends processing, edits to the
invalid-link notice, and returns no path. -/
theorem c4_witness :
    download_from_public_link envBad 5 "https://mega.nz/file/BAD" =
      ([Act.sendMessage 5 (Msg.processing "https://mega.nz/file/BAD"),
        Act.editMessage 5 Msg.invalidLink], none) :=
  (c4_invalid_link envBad 5 "https://mega.nz/file/BAD" (by decide)).1

/-- C9: with the token at its placeholder the startup path only prints the
setup instructions — the application is never built and polling never
starts — and with any other token the application is built and run. -/
theorem c9_token_check :
    main_startup placeholderToken = [StartupAction.printSetup] ∧
    StartupAction.buildApp ∉ main_startup placeholderToken ∧
    StartupAction.runPolling ∉ main_startup placeholderToken ∧
    (∀ t, t ≠ placeholderToken →
       main_startup t = [StartupAction.buildApp, StartupAction.runPolling]) := by
  refine ⟨by decide, by decide, by decide, ?_⟩
  intro t ht
  simp [main_startup, ht]

/-- C9 witness: a non-placeholder token starts the bot. -/
theorem c9_witness :
    main_startup "123456:ABC" = [StartupAction.buildApp, StartupAction.runPolling] :=
  c9_token_check.2.2.2 "123456:ABC" (by decide)

/-- C10: an authorized download command with zero arguments replies with
the single usage-example message and nothing else: no download, no relay,
no file. -/
theorem c10_no_args_usage (env : Env) (user : Int) (chat : Nat)
    (h : user ∈ AUTHORIZED_USERS) :
    download_command env user chat [] = [Act.sendMessage chat Msg.usageDownload] := by
  simp [download_command, h]

/-- C10 witness: the authorized user with no arguments gets the usage
message. -/
theorem c10_witness :
    download_command envUp 123456789 5 [] = [Act.sendMessage 5 Msg.usageDownload] :=
  c10_no_args_usage envUp 123456789 5 (by decide)

/-- C1 counterexample: with the download succeeding and the upload to the
chat failing, the artifact `downloads/a.zip` is created and handed to the
relay (the upload is attempted), yet no deletion of it ever appears in the
trace — `os.remove` sits inside the `try` after the upload, so deletion is
not attempted when the upload fails, contradicting the claim that deletion
happens on every exit path of the relay. -/
theorem c1_counterexample :
    Act.createFile "downloads/a.zip"
        ∈ download_command envDown 123456789 5 ["https://mega.nz/file/X"] ∧
    Act.sendDocument 5 "downloads/a.zip" (Msg.capCompleted "a.zip")
        ∈ download_command envDown 123456789 5 ["https://mega.nz/file/X"] ∧
    Act.removeFile "downloads/a.zip"
        ∉ download_command envDown 123456789 5 ["https://mega.nz/file/X"] ∧
    envDown.uploadOk "downloads/a.zip" = false := by
  decide

/-- C1 (amended): the relay deletes the local artifact exactly on its
successful-upload exit path — after a successful upload the file is
removed, while on upload failure the error message is sent and the file is
left in place; consequently, in the download command the artifact's
deletion appears in the trace if and only if the upload succeeded. -/
theorem c1_relay_cleanup (env : Env) (chat : Nat) (path : String) (cap : Msg)
    (idx : Option Nat) :
    (env.uploadOk path = true →
       relayFile env chat path cap idx =
         [Act.sendDocument chat path cap, Act.removeFile path]) ∧
    (env.uploadOk path = false →
       Act.removeFile path ∉ relayFile env chat path cap idx ∧
       relayFile env chat path cap idx =
         [Act.sendDocument chat path cap,
          Act.sendMessage chat (Msg.errorSending idx (env.uploadErr path))]) ∧
    (∀ (user : Int) (megaLink : String) (rest : List String) (info : FileMeta),
       user ∈ AUTHORIZED_USERS → is_valid_link megaLink = true →
       env.fileInfo megaLink = some info → env.downloadOk megaLink = true →
       (Act.removeFile ("downloads/" ++ info.name)
           ∈ download_command env user chat (megaLink :: rest)
         ↔ env.uploadOk ("downloads/" ++ info.name) = true)) := by
  refine ⟨?_, ?_, ?_⟩
  · intro hup
    simp [relayFile, hup]
  · intro hup
    simp [relayFile, hup]
  · intro user megaLink rest info hu hv hfi hdl
    cases hup : env.uploadOk ("downloads/" ++ info.name)
    · simp [download_command, hu, hv, download_from_public_link, hfi, hdl,
        relayFile, hup]
    · simp [download_command, hu, hv, download_from_public_link, hfi, hdl,
        relayFile, hup]

/-- C1 witness: when the upload succeeds the trace does delete the
artifact. -/
theorem c1_witness :
    Act.removeFile "downloads/a.zip"
      ∈ download_command envUp 123456789 5 ["https://mega.nz/file/X"] :=
  ((c1_relay_cleanup envUp 5 "downloads/a.zip" (Msg.capCompleted "a.zip") none).2.2
    123456789 "https://mega.nz/file/X" [] ⟨"a.zip", 2048⟩
    (by decide) (by decide) (by decide) (by decide)).mpr (by decide)

/-- C5 counterexample: a line carrying trailing whitespace passes the
prefix check, but the batch receives its stripped form, not the line
itself, so the batch is not "exactly the non-empty lines that pass the
Link Validator". -/
theorem c5_counterexample :
    parse_links ["https://mega.nz/file/AAA "] = ["https://mega.nz/file/AAA"] ∧
    specBatch ["https://mega.nz/file/AAA "] = ["https://mega.nz/file/AAA "] ∧
    parse_links ["https://mega.nz/file/AAA "] ≠ specBatch ["https://mega.nz/file/AAA "] := by
  decide

/-- C5 (amended): the batch is exactly the stripped forms of the lines
that pass the Link Validator (prefix check on the raw line), in original
order with duplicates preserved — on whitespace-free lines this coincides
with the lines themselves, as on the reference input — and the temporary
list file is removed immediately after parsing, before anything else. -/
theorem c5_batch_parsing (lines : List String) :
    parse_links lines = (lines.filter (fun l => is_valid_link l)).map pyStrip ∧
    parse_links ["", "https://mega.nz/file/AAA", "not-a-link", "https://mega.nz/file/BBB"]
      = ["https://mega.nz/file/AAA", "https://mega.nz/file/BBB"] ∧
    (∀ (env : Env) (user : Int) (chat : Nat) (doc : Document),
       user ∈ AUTHORIZED_USERS →
       (doc.mimeType == "text/plain" || pyEndswith doc.fileName ".txt") = true →
       (handle_document env user chat doc).take 2 =
         [Act.createFile ("temp_" ++ doc.fileId ++ ".txt"),
          Act.removeFile ("temp_" ++ doc.fileId ++ ".txt")]) := by
  refine ⟨parse_links_eq lines, by decide, ?_⟩
  intro env user chat doc hu hm
  simp only [handle_document, if_pos hu, hm, if_true]
  split <;> rfl

/-- C5 witness: the reference batch, through the amended equation. -/
theorem c5_witness :
    parse_links ["", "https://mega.nz/file/AAA", "not-a-link", "https://mega.nz/file/BBB"]
      = ["https://mega.nz/file/AAA", "https://mega.nz/file/BBB"] :=
  (c5_batch_parsing []).2.1

/-- C6: the four reference values of the size formatter, 1024-based with
two decimal places. -/
theorem c6_format_size_values :
    format_size 0 = "0.00 B" ∧
    format_size 1024 = "1.00 KB" ∧
    format_size 1536 = "1.50 KB" ∧
    format_size (1024 ^ 4) = "1.00 TB" := by
  decide

/-- C7 counterexample: 1024 and 1025 bytes format to the same unit with
the same numeric part "1.00" — two-decimal rounding collapses distinct
inputs, so the numeric part is not strictly increasing within a unit. -/
theorem c7_counterexample :
    format_size 1024 = "1.00 KB" ∧
    format_size 1025 = "1.00 KB" ∧
    (1024 : Nat) < 1025 ∧
    sizeUnit 1024 = sizeUnit 1025 ∧
    sizeHundredths 1024 = sizeHundredths 1025 := by
  decide

/-- C7 (amended): `format_size` always renders as a numeric part and one
of the six unit suffixes B/KB/MB/GB/TB/PB, and within a fixed unit the
numeric part is monotonically non-decreasing (not strictly increasing) in
the input. -/
theorem c7_unit_monotonicity :
    (∀ n, format_size n = fmt2h (sizeHundredths n) ++ " " ++ sizeUnit n) ∧
    (∀ n, sizeUnit n ∈ unitsAll) ∧
    (∀ n m, sizeUnit n = sizeUnit m → n ≤ m → sizeHundredths n ≤ sizeHundredths m) := by
  refine ⟨format_size_eq, ?_, ?_⟩
  · intro n
    have h := sizeUnitIdx_le n
    unfold sizeUnit
    interval_cases h5 : sizeUnitIdx n <;> decide
  · intro n m hunit hle
    have hidx : sizeUnitIdx n = sizeUnitIdx m := sizeUnit_inj hunit
    unfold sizeHundredths
    rw [hidx]
    exact rheFrac_mono _ (by omega)

/-- C7 witness: 1024 and 2048 bytes share the KB unit and the numeric part
does not decrease. -/
theorem c7_witness :
    sizeHundredths 1024 ≤ sizeHundredths 2048 :=
  c7_unit_monotonicity.2.2 1024 2048 (by decide) (by decide)

/-- C8: the link check accepts a string exactly when it extends the
prefix `https://mega.nz/` from position 0, and rejects the empty string,
the wrong-scheme `http://` variant, and a string carrying the prefix only
mid-string. -/
theorem c8_link_validator :
    (∀ s : String, is_valid_link s = true ↔ ∃ t : String, s = megaUrl ++ t) ∧
    is_valid_link "" = false ∧
    is_valid_link "http://mega.nz/file/AAA" = false ∧
    is_valid_link "see https://mega.nz/file/AAA" = false := by
  refine ⟨?_, by decide, by decide, by decide⟩
  intro s
  rw [is_valid_link, pyStartswith, isPrefixOf_append_iff]
  constructor
  · rintro ⟨t, ht⟩
    refine ⟨String.mk t, String.ext ?_⟩
    rw [String.data_append]
    exact ht
  · rintro ⟨t, rfl⟩
    exact ⟨t.data, by rw [String.data_append]⟩

/-- C8 witness: a concrete well-formed link is accepted via the
characterization. -/
theorem c8_witness :
    is_valid_link "https://mega.nz/file/Q" = true :=
  (c8_link_validator.1 "https://mega.nz/file/Q").mpr ⟨"file/Q", by decide⟩

/-- C3: for an authorized plain-text upload, if parsing leaves no valid
links the handler reports "no valid links" and its trace ends there; for a
non-empty batch of N links the trace is the announced count followed by,
for each link in order paired with its position i (as `enumerate(links,
1)` yields it), the position announcement, the download pipeline, the
relay only when the download returned a path, and an unconditional 2-unit
sleep — the last item included, a failed item not stopping the loop — and
then exactly one final batch-completed message; the trace contains exactly
one batch-completed message and exactly N sleeps. -/
theorem c3_batch_processor (env : Env) (user : Int) (chat : Nat) (doc : Document)
    (hu : user ∈ AUTHORIZED_USERS)
    (hm : (doc.mimeType == "text/plain" || pyEndswith doc.fileName ".txt") = true) :
    (parse_links doc.content = [] →
       handle_document env user chat doc =
         [Act.createFile ("temp_" ++ doc.fileId ++ ".txt"),
          Act.removeFile ("temp_" ++ doc.fileId ++ ".txt"),
          Act.sendMessage chat Msg.noValidLinks]) ∧
    (parse_links doc.content ≠ [] →
       handle_document env user chat doc =
         [Act.createFile ("temp_" ++ doc.fileId ++ ".txt"),
          Act.removeFile ("temp_" ++ doc.fileId ++ ".txt"),
          Act.sendMessage chat (Msg.found (parse_links doc.content).length)]
         ++ (List.enumFrom 1 (parse_links doc.content)).flatMap
              (fun p => batchItem env chat (parse_links doc.content).length p.1 p.2)
         ++ [Act.sendMessage chat Msg.batchDone] ∧
       (handle_document env user chat doc).count (Act.sendMessage chat Msg.batchDone) = 1 ∧
       (handle_document env user chat doc).count (Act.sleep 2)
         = (parse_links doc.content).length) := by
  constructor
  · intro hnil
    simp [handle_document, hu, hm, hnil]
  · intro hne
    have hemp : (parse_links doc.content).isEmpty = false := by
      cases h : (parse_links doc.content).isEmpty
      · rfl
      · exact absurd (List.isEmpty_iff.mp h) hne
    have htr : handle_document env user chat doc =
        [Act.createFile ("temp_" ++ doc.fileId ++ ".txt"),
         Act.removeFile ("temp_" ++ doc.fileId ++ ".txt"),
         Act.sendMessage chat (Msg.found (parse_links doc.content).length)]
        ++ batchLoop env chat (parse_links doc.content).length 1 (parse_links doc.content)
        ++ [Act.sendMessage chat Msg.batchDone] := by
      simp [handle_document, hu, hm, hemp]
    refine ⟨?_, ?_, ?_⟩
    · rw [htr, batchLoop_eq_flatMap]
    · rw [htr]
      simp [List.count_append, count_batchDone_batchLoop, List.count_cons]
    · rw [htr]
      simp [List.count_append, count_sleep_batchLoop, List.count_cons]

/-- C3 witness: a one-link batch with every call succeeding has exactly
one batch-completed message and one sleep. -/
theorem c3_witness :
    (handle_document envUp 123456789 7 docOne).count (Act.sendMessage 7 Msg.batchDone) = 1 ∧
    (handle_document envUp 123456789 7 docOne).count (Act.sleep 2) = 1 :=
  ⟨((c3_batch_processor envUp 123456789 7 docOne (by decide) (by decide)).2
      (by decide)).2.1,
   ((c3_batch_processor envUp 123456789 7 docOne (by decide) (by decide)).2
      (by decide)).2.2⟩
